import Mathlib

/-!
Verification of `zerospeech2020/validation/utils.py`.

The module has three functions: `validate_yaml` (the spec's `SchemaChecker.validate`),
`validate_code` (the spec's `DisclosureChecker.validate`) and `validate_directory`
(the spec's `DirectoryShapeChecker.validate`).  Each is embedded below as a pure
Lean function.  Filesystem facts (whether the file or directory exists, what the
YAML parser produced, what `os.listdir` returned) are passed in as arguments, and
every `raise ValueError(msg)` site becomes a distinct constructor of `VError`
carrying the data interpolated into `msg`; `VError.message` renders the exact
message string of the Python code.
-/

/-- A YAML value as produced by `yaml.safe_load`: `None`, booleans, integers,
strings, sequences and mappings (a Python `dict`, modelled as an association
list in document order, which is the iteration order of a Python `dict`).
Floats are not needed by any claim and are omitted from the value universe. -/
inductive YamlValue where
  | null : YamlValue
  | bool : Bool → YamlValue
  | int : Int → YamlValue
  | str : String → YamlValue
  | list : List YamlValue → YamlValue
  | map : List (String × YamlValue) → YamlValue

/-- A Python type object usable as the second argument of `isinstance`
(the type constraints stored in the `entries` dictionaries). -/
inductive YamlType where
  | tBool | tInt | tStr | tList | tDict
deriving DecidableEq, Repr

/-- Python truthiness (`bool(v)`) for the values of `YamlValue`:
`None`, `False`, `0`, `""`, `[]` and `{}` are falsy, everything else truthy.
This is the test performed by `if not metadata` at utils.py line 40. -/
def YamlValue.truthy : YamlValue → Bool
  | .null => false
  | .bool b => b
  | .int n => !(n == 0)
  | .str s => !s.isEmpty
  | .list l => !l.isEmpty
  | .map m => !m.isEmpty

/-- `v is None` (utils.py line 64). -/
def YamlValue.isNull : YamlValue → Bool
  | .null => true
  | _ => false

/-- Whether the value is a mapping, i.e. has a `.keys()` method; on any other
value `metadata.keys()` raises `AttributeError` (utils.py lines 46-48). -/
def YamlValue.isMap : YamlValue → Bool
  | .map _ => true
  | _ => false

/-- Python `isinstance(v, t)` for our value and type universes.  Note that in
Python `bool` is a subclass of `int`, so `isinstance(True, int)` holds. -/
def isinstance : YamlValue → YamlType → Bool
  | .bool _, .tBool => true
  | .bool _, .tInt => true
  | .int _, .tInt => true
  | .str _, .tStr => true
  | .list _, .tList => true
  | .map _, .tDict => true
  | _, _ => false

/-- The Python name of a type object, as `str(t)` renders it inside the
f-string of utils.py line 68. -/
def YamlType.pyName : YamlType → String
  | .tBool => "<class 'bool'>"
  | .tInt => "<class 'int'>"
  | .tStr => "<class 'str'>"
  | .tList => "<class 'list'>"
  | .tDict => "<class 'dict'>"

/-- A schema dictionary (`entries` / `optional_entries`): a Python `dict`
mapping an entry name to a type constraint or `None`, modelled as an
association list in insertion order. -/
abbrev Schema := List (String × Option YamlType)

/-- The parsed metadata mapping. -/
abbrev Ymap := List (String × YamlValue)

/-- `d[k]` lookup in a Python `dict` modelled as an association list:
the first binding of the key (bindings are unique in a real `dict`). -/
def dictLookup {α : Type} : List (String × α) → String → Option α
  | [], _ => none
  | (k, v) :: rest, key => if k = key then some v else dictLookup rest key

/-- `d[k] = v` on a Python `dict`: replace the value of an existing key in
place (keeping its position) or append a fresh binding at the end. -/
def dictSet {α : Type} : List (String × α) → String → α → List (String × α)
  | [], key, val => [(key, val)]
  | (k, v) :: rest, key, val =>
    if k = key then (key, val) :: rest else (k, v) :: dictSet rest key val

/-- `d.update(d2)` on Python `dict`s: assign every binding of `d2` into `d`,
in order (utils.py line 62). -/
def dictUpdate {α : Type} (d d2 : List (String × α)) : List (String × α) :=
  d2.foldl (fun acc kv => dictSet acc kv.1 kv.2) d

/-- The keys of a dictionary, in insertion order (`d.keys()`). -/
def dictKeys {α : Type} (d : List (String × α)) : List String :=
  d.map Prod.fst

/-- Lexicographic comparison of two char lists by code point: this is the
order in which Python compares strings. -/
def lexLe : List Char → List Char → Bool
  | [], _ => true
  | _ :: _, [] => false
  | a :: as, b :: bs =>
    if a.toNat < b.toNat then true
    else if b.toNat < a.toNat then false
    else lexLe as bs

/-- `a <= b` on Python strings. -/
def strLe (a b : String) : Bool :=
  lexLe a.data b.data

/-- The ordering of Python `sorted` on strings, as a relation. -/
def strLeB (a b : String) : Prop := strLe a b = true

instance : DecidableRel strLeB := fun a b => instDecidableEqBool (strLe a b) true

/-- Python `sorted` on a list of strings (lexicographic, stable). -/
def sortStr (l : List String) : List String :=
  l.insertionSort strLeB

/-- `", ".join(l)`. -/
def joinComma (l : List String) : String :=
  String.intercalate ", " l

/-- One constructor per `raise` site of utils.py, carrying the data
interpolated into the message.  The spec names these conditions
`NotFoundError`, `ParseError`, `EmptyFileError`, `MissingEntriesError`,
`ForbiddenEntriesError`, `EmptyValueError`, `TypeMismatchError`,
`UnexpectedContentError`, `MissingDirectoryError`, `EmptyDirectoryError`;
the Python code raises a plain `ValueError` whose message distinguishes them.
`keyError` stands for the `KeyError` that `entries[k]` at line 66 would raise
on a key absent from the merged schema. -/
inductive VError where
  | fileNotFound : String → String → VError
  | parseError : String → VError
  | emptyFile : String → VError
  | missingEntries : String → List String → VError
  | forbiddenEntries : String → List String → VError
  | emptyEntry : String → String → VError
  | typeError : String → String → YamlType → VError
  | keyError : String → VError
  | closedNotEmpty : String → VError
  | openMissing : String → VError
  | openEmpty : String → VError
  | dirNotFound : String → VError
  | extraFiles : String → List String → VError
  | missingFiles : String → List String → VError
deriving DecidableEq

/-- The exact message string raised by the corresponding Python `raise`. -/
def VError.message : VError → String
  | .fileNotFound name filename => name ++ " file not found: " ++ filename
  | .parseError name => "failed to parse " ++ name
  | .emptyFile name => name ++ " file is empty"
  | .missingEntries name keys =>
      "the following " ++ name ++ " entries are missing: " ++ joinComma keys
  | .forbiddenEntries name keys =>
      "the following " ++ name ++ " entries are forbidden: " ++ joinComma keys
  | .emptyEntry name key => "entry \"" ++ key ++ "\" is empty in " ++ name
  | .typeError name key t =>
      "entry \"" ++ key ++ "\" in " ++ name ++ " must be of type " ++ t.pyName
  | .keyError key => "KeyError: " ++ key
  | .closedNotEmpty name =>
      "submission declared closed source but " ++ name ++ " directory is not empty"
  | .openMissing name =>
      "submission declared open source but missing folder " ++ name
  | .openEmpty name =>
      "submission declared open source but empty folder " ++ name
  | .dirNotFound name => name ++ " directory not found"
  | .extraFiles name keys =>
      name ++ " directory contains extra files or directories: " ++ joinComma keys
  | .missingFiles name keys =>
      name ++ " directory has missing files or directories: " ++ joinComma keys

/-- utils.py line 50: `missing = [e for e in mandatory if e not in mandatory]`,
transcribed literally (the filter tests membership in `mandatory` itself,
not in `existing`). -/
def missingOf (mandatory : List String) : List String :=
  mandatory.filter (fun e => !(mandatory.contains e))

/-- utils.py line 56: `extra = [e for e in existing if e not in mandatory + optional]`. -/
def extraOf (mandatory optional existing : List String) : List String :=
  existing.filter (fun e => !((mandatory ++ optional).contains e))

/-- The `for k, v in metadata.items()` loop of utils.py lines 63-68 run over
the merged schema `entries` (after `entries.update(optional_entries)`):
a `None` value raises `entry "k" is empty`, then `entries[k]` is looked up
(a `KeyError` if absent) and, when the constraint is not `None`,
`isinstance` is checked. -/
def checkItems (name : String) (merged : Schema) : Ymap → Except VError Unit
  | [] => .ok ()
  | (k, v) :: rest =>
    if v.isNull then .error (.emptyEntry name k)
    else
      match dictLookup merged k with
      | none => .error (.keyError k)
      | some none => checkItems name merged rest
      | some (some t) =>
        if isinstance v t then checkItems name merged rest
        else .error (.typeError name k t)

/-- `validate_yaml(filename, name, entries, optional_entries)` of utils.py
lines 7-70.  `fileExists` is `os.path.isfile(filename)`; `parsed` is the
outcome of `yaml.safe_load` on the file's content (`none` when the parser
raises `yaml.YAMLError`).  The second component of the result is the value
of the caller's `entries` dictionary after the call: `entries.update(optional_entries)`
at line 62 mutates it in place, so it is the merged dictionary whenever
execution reaches that line and the original dictionary otherwise.
`optional_entries` is never mutated. -/
def validate_yaml (fileExists : Bool) (parsed : Option YamlValue)
    (filename name : String) (entries optional_entries : Schema) :
    Except VError Ymap × Schema :=
  if !fileExists then (.error (.fileNotFound name filename), entries)
  else
    match parsed with
    | none => (.error (.parseError name), entries)
    | some metadata =>
      if !metadata.truthy then (.error (.emptyFile name), entries)
      else
        match metadata with
        | .map m =>
          let mandatory := sortStr (dictKeys entries)
          let existing := sortStr (dictKeys m)
          let missing := missingOf mandatory
          if !missing.isEmpty then (.error (.missingEntries name missing), entries)
          else
            let optional := sortStr (dictKeys optional_entries)
            let extra := extraOf mandatory optional existing
            if !extra.isEmpty then (.error (.forbiddenEntries name extra), entries)
            else
              let merged := dictUpdate entries optional_entries
              match checkItems name merged m with
              | .error e => (.error e, merged)
              | .ok _ => (.ok m, merged)
        | _ => (.error (.parseError name), entries)

/-- `validate_code(directory, name, is_open_source, log)` of utils.py
lines 73-113.  `dirExists` is `os.path.isdir(directory)` and `listing` is
`os.listdir(directory)` (only consulted when the directory exists).  The
second component counts the `log.info` calls performed: one for the
`'validating %s directory ...'` line 92 and one more for the
manual-inspection notice at line 111. -/
def validate_code (dirExists : Bool) (listing : List String)
    (name : String) (is_open_source : Bool) : Except VError Unit × Nat :=
  let logCount := 1
  if !is_open_source && dirExists && !listing.isEmpty then
    (.error (.closedNotEmpty name), logCount)
  else if is_open_source then
    if !dirExists then (.error (.openMissing name), logCount)
    else if listing.isEmpty then (.error (.openEmpty name), logCount)
    else (.ok (), logCount + 1)
  else (.ok (), logCount)

/-- `validate_directory(directory, name, entries, log, all_exist)` of
utils.py lines 116-136.  `dirExists` is `os.path.isdir(directory)`;
`listing` is the directory's children.  The Python code builds
`set(os.listdir(directory))` and iterates Python sets, whose order is
arbitrary (hash order); the model takes the arbitrary enumeration order as
the order of the incoming `listing` and the set differences preserve it —
the point being that the code never sorts these lists. -/
def validate_directory (dirExists : Bool) (listing : List String)
    (name : String) (entries : List String) (all_exist : Bool) :
    Except VError (List String) :=
  if !dirExists then .error (.dirNotFound name)
  else
    let extra := listing.filter (fun e => !(entries.contains e))
    if !extra.isEmpty then .error (.extraFiles name extra)
    else if all_exist then
      let missing := entries.filter (fun e => !(listing.contains e))
      if !missing.isEmpty then .error (.missingFiles name missing)
      else .ok listing
    else .ok listing

/-! ### Order lemmas for the string sort -/

theorem lexLe_total : ∀ (a b : List Char), lexLe a b = true ∨ lexLe b a = true
  | [], _ => .inl rfl
  | _ :: _, [] => .inr rfl
  | a :: as, b :: bs => by
    simp only [lexLe]
    split_ifs <;>
      first
        | exact .inl rfl
        | exact .inr rfl
        | omega
        | exact lexLe_total as bs

theorem lexLe_trans : ∀ (a b c : List Char),
    lexLe a b = true → lexLe b c = true → lexLe a c = true
  | [], _, _, _, _ => rfl
  | _ :: _, [], _, h, _ => by simp [lexLe] at h
  | _ :: _, _ :: _, [], _, h => by simp [lexLe] at h
  | a :: as, b :: bs, c :: cs, h1, h2 => by
    simp only [lexLe] at h1 h2 ⊢
    split_ifs at h1 h2 ⊢ <;>
      first
        | exact lexLe_trans as bs cs h1 h2
        | rfl
        | omega

instance : IsTotal String strLeB :=
  ⟨fun a b => lexLe_total a.data b.data⟩

instance : IsTrans String strLeB :=
  ⟨fun a b c => lexLe_trans a.data b.data c.data⟩

theorem mem_sortStr {a : String} {l : List String} : a ∈ sortStr l ↔ a ∈ l :=
  List.mem_insertionSort strLeB

theorem sorted_sortStr (l : List String) : List.Sorted strLeB (sortStr l) :=
  List.sorted_insertionSort strLeB l

/-! ### Dictionary lemmas -/

theorem dictKeys_cons {α : Type} (k : String) (v : α) (rest : List (String × α)) :
    dictKeys ((k, v) :: rest) = k :: dictKeys rest := rfl

theorem dictLookup_isSome_iff_mem {α : Type} (d : List (String × α)) (k : String) :
    (dictLookup d k).isSome = true ↔ k ∈ dictKeys d := by
  induction d with
  | nil => simp [dictLookup, dictKeys]
  | cons kv rest ih =>
    obtain ⟨k2, v2⟩ := kv
    by_cases h : k2 = k
    · subst h
      simp [dictLookup, dictKeys_cons]
    · have h' : ¬k = k2 := fun hk => h hk.symm
      simp [dictLookup, dictKeys_cons, h, h', ih]

theorem dictLookup_dictSet_self {α : Type} (d : List (String × α)) (k : String) (v : α) :
    dictLookup (dictSet d k v) k = some v := by
  induction d with
  | nil => simp [dictSet, dictLookup]
  | cons kv rest ih =>
    obtain ⟨k2, v2⟩ := kv
    by_cases h : k2 = k <;> simp [dictSet, dictLookup, h, ih]

theorem dictLookup_dictSet_ne {α : Type} (d : List (String × α)) (k : String) (v : α)
    (k' : String) (h : k ≠ k') :
    dictLookup (dictSet d k v) k' = dictLookup d k' := by
  induction d with
  | nil => simp [dictSet, dictLookup, h]
  | cons kv rest ih =>
    obtain ⟨k2, v2⟩ := kv
    by_cases h2 : k2 = k <;> simp [dictSet, dictLookup, h, h2, ih]

theorem dictUpdate_cons {α : Type} (d : List (String × α)) (k : String) (v : α)
    (rest : List (String × α)) :
    dictUpdate d ((k, v) :: rest) = dictUpdate (dictSet d k v) rest := rfl

theorem dictLookup_dictUpdate_not_mem {α : Type} (d d2 : List (String × α)) (k : String)
    (h : k ∉ dictKeys d2) :
    dictLookup (dictUpdate d d2) k = dictLookup d k := by
  induction d2 generalizing d with
  | nil => rfl
  | cons kv rest ih =>
    obtain ⟨k2, v2⟩ := kv
    rw [dictKeys_cons, List.mem_cons] at h
    push_neg at h
    rw [dictUpdate_cons, ih _ h.2, dictLookup_dictSet_ne _ _ _ _ (fun hk => h.1 hk.symm)]

theorem dictLookup_dictUpdate_of_lookup {α : Type} (d d2 : List (String × α)) (k : String)
    (v : α) (hnd : (dictKeys d2).Nodup) (h : dictLookup d2 k = some v) :
    dictLookup (dictUpdate d d2) k = some v := by
  induction d2 generalizing d with
  | nil => simp [dictLookup] at h
  | cons kv rest ih =>
    obtain ⟨k2, v2⟩ := kv
    rw [dictKeys_cons, List.nodup_cons] at hnd
    rw [dictUpdate_cons]
    by_cases hk : k2 = k
    · subst hk
      simp only [dictLookup, if_pos] at h
      rw [dictLookup_dictUpdate_not_mem _ _ _ hnd.1, dictLookup_dictSet_self, h]
    · rw [dictLookup, if_neg hk] at h
      exact ih (dictSet d k2 v2) hnd.2 h

theorem dictLookup_dictUpdate_isSome {α : Type} (d d2 : List (String × α)) (k : String) :
    (dictLookup (dictUpdate d d2) k).isSome
      = ((dictLookup d k).isSome || (dictLookup d2 k).isSome) := by
  induction d2 generalizing d with
  | nil => simp [dictUpdate, dictLookup]
  | cons kv rest ih =>
    obtain ⟨k2, v2⟩ := kv
    rw [dictUpdate_cons, ih]
    by_cases hk : k2 = k
    · subst hk
      rw [dictLookup_dictSet_self]
      simp [dictLookup]
    · rw [dictLookup_dictSet_ne _ _ _ _ hk]
      simp [dictLookup, hk]

/-! ### Behaviour lemmas for validate_yaml -/

/-- utils.py line 50 compares `mandatory` against itself, so the `missing`
list is empty for every schema. -/
theorem missingOf_eq_nil (l : List String) : missingOf l = [] := by
  simp [missingOf, List.contains]

/-- Every error of the entry loop (utils.py lines 63-68) is an empty-entry or
a type error, provided every metadata key is found in the merged schema. -/
theorem checkItems_error_shape (nm : String) (merged : Schema) :
    ∀ (m : Ymap), (∀ k ∈ dictKeys m, (dictLookup merged k).isSome = true) →
      ∀ e : VError, checkItems nm merged m = .error e →
        (∃ k, e = .emptyEntry nm k) ∨ ∃ k t, e = .typeError nm k t
  | [], _, e, h => by simp [checkItems] at h
  | (k, v) :: rest, hk, e, h => by
    simp only [checkItems] at h
    by_cases hnull : v.isNull
    · rw [if_pos hnull] at h
      exact .inl ⟨k, (Except.error.inj h).symm⟩
    · rw [if_neg hnull] at h
      have hs : (dictLookup merged k).isSome = true := hk k (by simp [dictKeys_cons])
      have hrest : ∀ k' ∈ dictKeys rest, (dictLookup merged k').isSome = true :=
        fun k' hk' => hk k' (by simp [dictKeys_cons, hk'])
      cases hmk : dictLookup merged k with
      | none => rw [hmk] at hs; simp at hs
      | some tOpt =>
        rw [hmk] at h
        cases tOpt with
        | none => exact checkItems_error_shape nm merged rest hrest e h
        | some t =>
          have h' : (if isinstance v t = true then checkItems nm merged rest
              else Except.error (VError.typeError nm k t)) = Except.error e := h
          by_cases hin : isinstance v t
          · rw [if_pos hin] at h'
            exact checkItems_error_shape nm merged rest hrest e h'
          · rw [if_neg hin] at h'
            exact .inr ⟨k, t, (Except.error.inj h').symm⟩

/-- Once the forbidden-entries check of utils.py lines 56-59 has passed,
every key present in the metadata is a key of the merged schema, so the
`entries[k]` lookup of line 66 cannot raise `KeyError`. -/
theorem extraOf_nil_lookup (en op : Schema) (m : Ymap)
    (h : extraOf (sortStr (dictKeys en)) (sortStr (dictKeys op)) (sortStr (dictKeys m)) = []) :
    ∀ k ∈ dictKeys m, (dictLookup (dictUpdate en op) k).isSome = true := by
  simp only [extraOf] at h
  intro k hk
  have hk' : k ∈ sortStr (dictKeys m) := mem_sortStr.mpr hk
  have hc := List.filter_eq_nil_iff.mp h k hk'
  simp [List.contains] at hc
  rw [dictLookup_dictUpdate_isSome]
  by_cases hen : k ∈ sortStr (dictKeys en)
  · exact Bool.or_eq_true_iff.mpr
      (.inl ((dictLookup_isSome_iff_mem en k).mpr (mem_sortStr.mp hen)))
  · exact Bool.or_eq_true_iff.mpr
      (.inr ((dictLookup_isSome_iff_mem op k).mpr (mem_sortStr.mp (hc hen))))

/-- Every error produced by `validate_yaml` comes from one of the raise sites
of utils.py lines 32-68, carries the caller's `name`, and carries key lists
that are sorted.  Neither the `KeyError` of `entries[k]` (line 66) nor the
missing-entries error of line 52 can occur: the former is guarded by the
forbidden-entries check, the latter is dead code (`missingOf_eq_nil`). -/
theorem validate_yaml_error_shape (fe : Bool) (p : Option YamlValue) (fn nm : String)
    (en op : Schema) (e : VError)
    (h : (validate_yaml fe p fn nm en op).1 = .error e) :
    e = .fileNotFound nm fn ∨ e = .parseError nm ∨ e = .emptyFile nm ∨
      (∃ ks, e = .forbiddenEntries nm ks ∧ List.Sorted strLeB ks) ∨
      (∃ k, e = .emptyEntry nm k) ∨ (∃ k t, e = .typeError nm k t) := by
  cases fe with
  | false =>
    simp only [validate_yaml, Bool.not_false, if_pos] at h
    exact .inl (Except.error.inj h).symm
  | true =>
    cases p with
    | none =>
      simp only [validate_yaml, Bool.not_true, Bool.false_eq_true, if_neg,
        not_false_eq_true] at h
      exact .inr (.inl (Except.error.inj h).symm)
    | some metadata =>
      by_cases ht : metadata.truthy
      · cases metadata with
        | null => simp [YamlValue.truthy] at ht
        | bool b => simp [validate_yaml, ht] at h; exact .inr (.inl h.symm)
        | int n => simp [validate_yaml, ht] at h; exact .inr (.inl h.symm)
        | str s => simp [validate_yaml, ht] at h; exact .inr (.inl h.symm)
        | list l => simp [validate_yaml, ht] at h; exact .inr (.inl h.symm)
        | map m =>
          simp only [validate_yaml, ht, Bool.not_true, Bool.false_eq_true, if_neg,
            not_false_eq_true, missingOf_eq_nil, List.isEmpty_nil] at h
          by_cases hex : (extraOf (sortStr (dictKeys en)) (sortStr (dictKeys op))
              (sortStr (dictKeys m))).isEmpty
          · rw [if_neg (by simp [hex])] at h
            have hnil : extraOf (sortStr (dictKeys en)) (sortStr (dictKeys op))
                (sortStr (dictKeys m)) = [] := List.isEmpty_iff.mp hex
            cases hc : checkItems nm (dictUpdate en op) m with
            | error e2 =>
              rw [hc] at h
              have := checkItems_error_shape nm (dictUpdate en op) m
                (extraOf_nil_lookup en op m hnil) e2 hc
              have he : e = e2 := (Except.error.inj h).symm
              subst he
              rcases this with ⟨k, hk⟩ | ⟨k, t, hkt⟩
              · exact .inr (.inr (.inr (.inr (.inl ⟨k, hk⟩))))
              · exact .inr (.inr (.inr (.inr (.inr ⟨k, t, hkt⟩))))
            | ok u => rw [hc] at h; simp at h
          · rw [if_pos (by simp at hex ⊢; simp [hex])] at h
            refine .inr (.inr (.inr (.inl ⟨_, (Except.error.inj h).symm, ?_⟩)))
            exact (sorted_sortStr (dictKeys m)).filter _
      · simp only [validate_yaml] at h
        rw [if_neg (by simp), if_pos (by simp [Bool.not_eq_true] at ht ⊢; simp [ht])] at h
        exact .inr (.inr (.inl (Except.error.inj h).symm))
/-! ### Error shapes of the two directory checkers -/

/-- Every error of `validate_code` is one of the three raise sites of
utils.py lines 96-109, carrying the caller's `name`. -/
theorem validate_code_error_shape (de : Bool) (ls : List String) (nm : String) (os : Bool)
    (e : VError) (h : (validate_code de ls nm os).1 = .error e) :
    e = .closedNotEmpty nm ∨ e = .openMissing nm ∨ e = .openEmpty nm := by
  cases os with
  | true =>
    cases de with
    | false => simp [validate_code] at h; exact .inr (.inl h.symm)
    | true =>
      cases ls with
      | nil => simp [validate_code] at h; exact .inr (.inr h.symm)
      | cons a l => simp [validate_code] at h
  | false =>
    cases de with
    | false => simp [validate_code] at h
    | true =>
      cases ls with
      | nil => simp [validate_code] at h
      | cons a l => simp [validate_code] at h; exact .inl h.symm

/-- Every error of `validate_directory` is one of the three raise sites of
utils.py lines 119-134, carrying the caller's `name`. -/
theorem validate_directory_error_shape (de : Bool) (ls : List String) (nm : String)
    (ents : List String) (ae : Bool) (e : VError)
    (h : validate_directory de ls nm ents ae = .error e) :
    e = .dirNotFound nm ∨ (∃ ks, e = .extraFiles nm ks) ∨ ∃ ks, e = .missingFiles nm ks := by
  simp only [validate_directory] at h
  split at h
  · exact .inl (Except.error.inj h).symm
  · split at h
    · exact .inr (.inl ⟨_, (Except.error.inj h).symm⟩)
    · split at h
      · split at h
        · exact .inr (.inr ⟨_, (Except.error.inj h).symm⟩)
        · simp at h
      · simp at h

/-! ### Error messages -/

/-- `msg` contains `label` as a substring. -/
def mentionsLabel (msg label : String) : Prop :=
  ∃ pre suf, msg = pre ++ label ++ suf

theorem mentionsLabel_of_eq (msg pre label suf : String)
    (h : msg = pre ++ label ++ suf) : mentionsLabel msg label :=
  ⟨pre, suf, h⟩

/-- The key lists carried by a missing- or forbidden-entries error are
sorted; other errors carry no list. -/
def VError.sortedLists : VError → Prop
  | .missingEntries _ ks => List.Sorted strLeB ks
  | .forbiddenEntries _ ks => List.Sorted strLeB ks
  | _ => True

/-! ### Result classifiers -/

/-- Whether a `validate_yaml` outcome is the missing-entries error of
utils.py line 52. -/
def resultIsMissingEntries : Except VError Ymap → Bool
  | .error (.missingEntries _ _) => true
  | _ => false

/-- Whether an entry-loop outcome is the `KeyError` of utils.py line 66. -/
def isKeyErrorResult : Except VError Unit → Bool
  | .error (.keyError _) => true
  | _ => false

/-! ### Claims -/

/-- C1 (code_bug): the spec requires `validate_yaml` to fail with the
missing-entries error when a mandatory key is absent, but utils.py line 50
filters `mandatory` against itself instead of against `existing`, so the
check never fires.  On the failing input — mandatory schema
`{"a": None, "b": None}`, file content `{"b": 1}` omitting mandatory `"a"` —
the call succeeds and returns the mapping; moreover no input whatsoever
produces a missing-entries error. -/
theorem validate_yaml_missing_mandatory_undetected :
    (validate_yaml true (some (.map [("b", .int 1)])) "meta.yaml" "meta"
        [("a", none), ("b", none)] []).1 = .ok [("b", .int 1)] ∧
    ∀ (fe : Bool) (p : Option YamlValue) (fn nm : String) (en op : Schema),
      resultIsMissingEntries (validate_yaml fe p fn nm en op).1 = false := by
  refine ⟨rfl, fun fe p fn nm en op => ?_⟩
  cases hr : (validate_yaml fe p fn nm en op).1 with
  | ok m => rfl
  | error e =>
    rcases validate_yaml_error_shape fe p fn nm en op e hr with
      h | h | h | ⟨ks, h, _⟩ | ⟨k, h⟩ | ⟨k, t, h⟩ <;> subst h <;> rfl

/-- C2 (counterexample): `entries.update(optional_entries)` at utils.py
line 62 mutates the caller's `entries` dictionary in place: after a
successful call with `entries={"a": None}` and `optional_entries={"b": None}`
the `entries` dictionary holds both keys, so it is no longer the dictionary
the caller supplied. -/
theorem validate_yaml_mutates_entries_cex :
    (validate_yaml true (some (.map [("a", .int 1)])) "f.yaml" "meta"
        [("a", none)] [("b", none)]).2 = [("a", none), ("b", none)] ∧
    ([("a", none), ("b", none)] : Schema) ≠ [("a", none)] :=
  ⟨rfl, by simp⟩

/-- C2 (amended): `validate_yaml` performs no side effect other than the
file read and the in-place merge of `optional_entries` into the caller's
`entries` dictionary at line 62: after any call the `entries` dictionary is
either unchanged (when the call fails before the merge) or equal to the
merged dictionary `dictUpdate entries optional_entries`; `optional_entries`
itself is never written to. -/
theorem validate_yaml_entries_after_call (fe : Bool) (p : Option YamlValue)
    (fn nm : String) (en op : Schema) :
    (validate_yaml fe p fn nm en op).2 = en ∨
    (validate_yaml fe p fn nm en op).2 = dictUpdate en op := by
  simp only [validate_yaml]
  repeat' first
    | exact .inl rfl
    | exact .inr rfl
    | split

/-- C4 (counterexample): with `is_open_source=True` on an existing directory
holding exactly one file, `validate_code` succeeds but performs two
`log.info` calls — the `validating ... directory` banner of line 92 and the
manual-inspection notice of line 111 — not one. -/
theorem validate_code_two_info_logs_cex :
    validate_code true ["model.py"] "code" true = (.ok (), 2) ∧ (2 : Nat) ≠ 1 :=
  ⟨rfl, by decide⟩

/-- C4 (amended): with `is_open_source=True` on an existing directory
holding exactly one file, `validate_code` succeeds and emits exactly two
informational log lines. -/
theorem validate_code_open_source_one_file (f nm : String) :
    validate_code true [f] nm true = (.ok (), 2) := rfl

/-- C6: an existing file whose content parses to a falsy value (`None` from
a zero-byte file, an empty mapping, or any other falsy document) always
fails with the empty-file error of utils.py line 41 and never any other
error. -/
theorem validate_yaml_falsy_empty_file (v : YamlValue) (fn nm : String)
    (en op : Schema) (h : v.truthy = false) :
    (validate_yaml true (some v) fn nm en op).1 = .error (.emptyFile nm) := by
  simp [validate_yaml, h]

/-- Witness for C6 at the inputs the claim names: a zero-byte file
(`yaml.safe_load` yields `None`) and a document parsing to an empty
mapping. -/
theorem validate_yaml_falsy_empty_file_witness :
    (validate_yaml true (some .null) "f.yaml" "meta" [("author", some .tStr)] []).1
        = .error (.emptyFile "meta") ∧
    (validate_yaml true (some (.map [])) "f.yaml" "meta" [] []).1
        = .error (.emptyFile "meta") :=
  ⟨validate_yaml_falsy_empty_file .null "f.yaml" "meta" [("author", some .tStr)] [] rfl,
   validate_yaml_falsy_empty_file (.map []) "f.yaml" "meta" [] [] rfl⟩

/-- C8: with `is_open_source=False`, `validate_code` fails with the
closed-source error exactly when the directory exists and is non-empty, and
succeeds when the directory is absent or empty (utils.py lines 96-100),
performing the single banner log call either way. -/
theorem validate_code_closed_source (de : Bool) (ls : List String) (nm : String) :
    validate_code de ls nm false
        = (if de && !ls.isEmpty then .error (.closedNotEmpty nm) else .ok (), 1) := by
  cases de with
  | false => rfl
  | true =>
    cases ls with
    | nil => rfl
    | cons a l => rfl

/-- C3 (counterexample): `validate_directory` builds its forbidden-entries
list from a Python set difference and joins it without sorting (utils.py
lines 122-127): a directory whose children enumerate as `["b", "a"]` with an
empty allow-list fails with the list `["b", "a"]`, which is not sorted. -/
theorem validate_directory_unsorted_cex :
    validate_directory true ["b", "a"] "nick" [] false
        = .error (.extraFiles "nick" ["b", "a"]) ∧
    ¬ List.Sorted strLeB ["b", "a"] := by
  refine ⟨rfl, fun hs => ?_⟩
  exact absurd ((List.sorted_cons.mp hs).1 "a" (List.mem_singleton.mpr rfl))
    (by decide)

/-- C3 (amended): every failure of the three validate operations carries a
message containing the supplied label, and the key lists of `validate_yaml`
failures are sorted (and comma-joined by `VError.message`); the entry lists
of `validate_directory` failures are comma-joined but in unsorted
set-iteration order. -/
theorem validate_errors_mention_label
    (fe : Bool) (p : Option YamlValue) (fn nm₁ : String) (en op : Schema) (e₁ : VError)
    (de₂ : Bool) (ls₂ : List String) (nm₂ : String) (os : Bool) (e₂ : VError)
    (de₃ : Bool) (ls₃ : List String) (nm₃ : String) (ents : List String) (ae : Bool)
    (e₃ : VError) :
    ((validate_yaml fe p fn nm₁ en op).1 = .error e₁ →
        mentionsLabel e₁.message nm₁ ∧ e₁.sortedLists) ∧
    ((validate_code de₂ ls₂ nm₂ os).1 = .error e₂ → mentionsLabel e₂.message nm₂) ∧
    (validate_directory de₃ ls₃ nm₃ ents ae = .error e₃ → mentionsLabel e₃.message nm₃) := by
  refine ⟨fun h₁ => ?_, fun h₂ => ?_, fun h₃ => ?_⟩
  · rcases validate_yaml_error_shape fe p fn nm₁ en op e₁ h₁ with
      h | h | h | ⟨ks, h, hs⟩ | ⟨k, h⟩ | ⟨k, t, h⟩ <;> subst h
    · exact ⟨mentionsLabel_of_eq _ "" nm₁ (" file not found: " ++ fn)
        (by simp [VError.message, String.append_assoc]), trivial⟩
    · exact ⟨mentionsLabel_of_eq _ "failed to parse " nm₁ ""
        (by simp [VError.message, String.append_assoc]), trivial⟩
    · exact ⟨mentionsLabel_of_eq _ "" nm₁ " file is empty"
        (by simp [VError.message, String.append_assoc]), trivial⟩
    · exact ⟨mentionsLabel_of_eq _ "the following " nm₁
        (" entries are forbidden: " ++ joinComma ks)
        (by simp [VError.message, String.append_assoc]), hs⟩
    · exact ⟨mentionsLabel_of_eq _ ("entry \"" ++ k ++ "\" is empty in ") nm₁ ""
        (by simp [VError.message, String.append_assoc]), trivial⟩
    · exact ⟨mentionsLabel_of_eq _ ("entry \"" ++ k ++ "\" in ") nm₁
        (" must be of type " ++ t.pyName)
        (by simp [VError.message, String.append_assoc]), trivial⟩
  · rcases validate_code_error_shape de₂ ls₂ nm₂ os e₂ h₂ with h | h | h <;> subst h
    · exact mentionsLabel_of_eq _ "submission declared closed source but " nm₂
        " directory is not empty" (by simp [VError.message, String.append_assoc])
    · exact mentionsLabel_of_eq _ "submission declared open source but missing folder "
        nm₂ "" (by simp [VError.message, String.append_assoc])
    · exact mentionsLabel_of_eq _ "submission declared open source but empty folder "
        nm₂ "" (by simp [VError.message, String.append_assoc])
  · rcases validate_directory_error_shape de₃ ls₃ nm₃ ents ae e₃ h₃ with
      h | ⟨ks, h⟩ | ⟨ks, h⟩ <;> subst h
    · exact mentionsLabel_of_eq _ "" nm₃ " directory not found"
        (by simp [VError.message, String.append_assoc])
    · exact mentionsLabel_of_eq _ "" nm₃
        (" directory contains extra files or directories: " ++ joinComma ks)
        (by simp [VError.message, String.append_assoc])
    · exact mentionsLabel_of_eq _ "" nm₃
        (" directory has missing files or directories: " ++ joinComma ks)
        (by simp [VError.message, String.append_assoc])

/-- Witness for C3 (amended) at one concrete failure of each operation. -/
theorem validate_errors_mention_label_witness :
    mentionsLabel (VError.fileNotFound "meta" "f.yaml").message "meta" ∧
    mentionsLabel (VError.closedNotEmpty "code").message "code" ∧
    mentionsLabel (VError.dirNotFound "nick").message "nick" :=
  ⟨((validate_errors_mention_label false none "f.yaml" "meta" [] []
      (.fileNotFound "meta" "f.yaml") true ["x"] "code" false (.closedNotEmpty "code")
      false [] "nick" [] false (.dirNotFound "nick")).1 rfl).1,
   (validate_errors_mention_label false none "f.yaml" "meta" [] []
      (.fileNotFound "meta" "f.yaml") true ["x"] "code" false (.closedNotEmpty "code")
      false [] "nick" [] false (.dirNotFound "nick")).2.1 rfl,
   (validate_errors_mention_label false none "f.yaml" "meta" [] []
      (.fileNotFound "meta" "f.yaml") true ["x"] "code" false (.closedNotEmpty "code")
      false [] "nick" [] false (.dirNotFound "nick")).2.2 rfl⟩

/-- C5 (counterexample): the non-mapping scalar `0` is falsy, so it trips
the `if not metadata` check of utils.py line 40 before the key-iteration
step and fails with the empty-file error — not the parse error the claim
requires for every non-mapping scalar. -/
theorem validate_yaml_falsy_scalar_cex :
    (validate_yaml true (some (.int 0)) "f.yaml" "meta" [] []).1
        = .error (.emptyFile "meta") ∧
    VError.emptyFile "meta" ≠ VError.parseError "meta" :=
  ⟨rfl, by simp⟩

/-- C5 (amended): every truthy non-mapping document — a non-empty string, a
non-zero number, `true`, a non-empty sequence — fails with the same
`failed to parse` error as malformed content (the `AttributeError` on
`metadata.keys()` is converted at utils.py lines 46-48); falsy scalars fall
to the empty-file check of line 40 first. -/
theorem validate_yaml_scalar_parse_error (v : YamlValue) (fn nm : String)
    (en op : Schema) (ht : v.truthy = true) (hm : v.isMap = false) :
    (validate_yaml true (some v) fn nm en op).1 = .error (.parseError nm) := by
  cases v with
  | null => simp [YamlValue.truthy] at ht
  | map m => simp [YamlValue.isMap] at hm
  | bool b => simp [validate_yaml, ht]
  | int n => simp [validate_yaml, ht]
  | str s => simp [validate_yaml, ht]
  | list l => simp [validate_yaml, ht]

/-- Witness for C5 (amended) at the bare quoted string of the claim. -/
theorem validate_yaml_scalar_parse_error_witness :
    (validate_yaml true (some (.str "hello")) "f.yaml" "meta" [] []).1
        = .error (.parseError "meta") :=
  validate_yaml_scalar_parse_error (.str "hello") "f.yaml" "meta" [] [] rfl rfl

/-- C7: a successful `validate_yaml` call returns the parsed mapping itself
(utils.py line 70), so its key set is exactly the key set of the source
file: nothing is stripped, defaulted or added. -/
theorem validate_yaml_ok_is_source (fe : Bool) (p : Option YamlValue) (fn nm : String)
    (en op : Schema) (m : Ymap)
    (h : (validate_yaml fe p fn nm en op).1 = .ok m) :
    p = some (.map m) := by
  cases fe with
  | false => simp [validate_yaml] at h
  | true =>
    cases p with
    | none => simp [validate_yaml] at h
    | some metadata =>
      by_cases ht : metadata.truthy
      · cases metadata with
        | null => simp [YamlValue.truthy] at ht
        | bool b => simp [validate_yaml, ht] at h
        | int n => simp [validate_yaml, ht] at h
        | str s => simp [validate_yaml, ht] at h
        | list l => simp [validate_yaml, ht] at h
        | map m2 =>
          simp only [validate_yaml, ht, Bool.not_true, Bool.false_eq_true, if_neg,
            not_false_eq_true, missingOf_eq_nil, List.isEmpty_nil] at h
          by_cases hex : (extraOf (sortStr (dictKeys en)) (sortStr (dictKeys op))
              (sortStr (dictKeys m2))).isEmpty
          · rw [if_neg (by simp [hex])] at h
            cases hc : checkItems nm (dictUpdate en op) m2 with
            | error e2 => rw [hc] at h; simp at h
            | ok u =>
              rw [hc] at h
              rw [Except.ok.inj h]
          · rw [if_pos (by simp at hex ⊢; simp [hex])] at h
            simp at h
      · have ht' : metadata.truthy = false := by
          revert ht; cases metadata.truthy <;> simp
        simp [validate_yaml, ht'] at h

/-- Witness for C7 at a concrete successful call. -/
theorem validate_yaml_ok_is_source_witness :
    (some (YamlValue.map [("b", YamlValue.int 1)]) : Option YamlValue)
        = some (.map [("b", .int 1)]) :=
  validate_yaml_ok_is_source true (some (.map [("b", .int 1)])) "f.yaml" "meta"
    [("b", none)] [] [("b", .int 1)] rfl

/-- C9: once the forbidden-entries check of utils.py lines 56-59 has passed
(the `extra` list is empty), every key present in the parsed mapping is a
key of the merged mandatory-plus-optional schema, so the `entries[k]`
lookup of line 66 always succeeds: the entry loop can never produce a
`KeyError`. -/
theorem validate_yaml_merged_lookup_total (en op : Schema) (m : Ymap) (nm : String)
    (h : extraOf (sortStr (dictKeys en)) (sortStr (dictKeys op))
        (sortStr (dictKeys m)) = []) :
    (∀ k ∈ dictKeys m, (dictLookup (dictUpdate en op) k).isSome = true) ∧
    isKeyErrorResult (checkItems nm (dictUpdate en op) m) = false := by
  refine ⟨extraOf_nil_lookup en op m h, ?_⟩
  cases hc : checkItems nm (dictUpdate en op) m with
  | ok u => rfl
  | error e =>
    rcases checkItems_error_shape nm (dictUpdate en op) m
        (extraOf_nil_lookup en op m h) e hc with ⟨k, hk⟩ | ⟨k, t, hkt⟩ <;>
      subst_vars <;> rfl

/-- Witness for C9 at a concrete schema and mapping passing the
forbidden-entries check. -/
theorem validate_yaml_merged_lookup_total_witness :
    (dictLookup (dictUpdate [("a", some YamlType.tStr)] [("b", none)]) "b").isSome
        = true ∧
    isKeyErrorResult (checkItems "meta"
        (dictUpdate [("a", some YamlType.tStr)] [("b", none)])
        [("a", .str "x"), ("b", .int 1)]) = false :=
  ⟨(validate_yaml_merged_lookup_total [("a", some .tStr)] [("b", none)]
      [("a", .str "x"), ("b", .int 1)] "meta" rfl).1 "b" (by simp [dictKeys]),
   (validate_yaml_merged_lookup_total [("a", some .tStr)] [("b", none)]
      [("a", .str "x"), ("b", .int 1)] "meta" rfl).2⟩

/-- C10: for a key carrying a type constraint in both schemas, the in-place
merge `entries.update(optional_entries)` of utils.py line 62 lets the
optional schema's constraint override the mandatory one, so the type check
of line 66 enforces the optional constraint: the call's outcome on a file
binding just that key depends only on `isinstance` against the optional
constraint, whatever the mandatory constraint was. -/
theorem validate_yaml_optional_overrides (en op : Schema) (k : String)
    (t1 : Option YamlType) (t : YamlType) (v : YamlValue) (fn nm : String)
    (h1 : dictLookup en k = some t1) (_hne : t1 ≠ some t)
    (h2 : dictLookup op k = some (some t))
    (hnd : (dictKeys op).Nodup) (hv : v.isNull = false) :
    (validate_yaml true (some (.map [(k, v)])) fn nm en op).1
        = if isinstance v t then .ok [(k, v)] else .error (.typeError nm k t) := by
  have hkop : k ∈ dictKeys op := (dictLookup_isSome_iff_mem op k).mp (by simp [h2])
  have hmem : k ∈ (sortStr (dictKeys en) ++ sortStr (dictKeys op)) :=
    List.mem_append.mpr (.inr (mem_sortStr.mpr hkop))
  have hextra : extraOf (sortStr (dictKeys en)) (sortStr (dictKeys op))
      (sortStr (dictKeys [(k, v)])) = [] := by
    simp only [extraOf]
    rw [List.filter_eq_nil_iff]
    intro a ha
    have ha' : a ∈ [k] := ha
    rw [List.mem_singleton] at ha'
    subst ha'
    simp [List.contains, hmem]
  have hmerged : dictLookup (dictUpdate en op) k = some (some t) :=
    dictLookup_dictUpdate_of_lookup en op k (some t) hnd h2
  simp only [validate_yaml, YamlValue.truthy, List.isEmpty_cons, Bool.not_false,
    Bool.not_true, Bool.false_eq_true, if_neg, not_false_eq_true,
    missingOf_eq_nil, List.isEmpty_nil, hextra, checkItems, hv, hmerged]
  by_cases hi : isinstance v t
  · rw [if_pos hi, if_pos hi]
  · rw [if_neg hi, if_neg hi]

/-- Witness for C10: mandatory constrains `"a"` to `str`, optional
constrains it to `int`; the integer value `3` is accepted, showing the
optional constraint is the one enforced. -/
theorem validate_yaml_optional_overrides_witness :
    (validate_yaml true (some (.map [("a", .int 3)])) "f.yaml" "meta"
        [("a", some .tStr)] [("a", some .tInt)]).1 = .ok [("a", .int 3)] :=
  validate_yaml_optional_overrides [("a", some .tStr)] [("a", some .tInt)] "a"
    (some .tStr) .tInt (.int 3) "f.yaml" "meta" rfl (by decide) rfl (by decide) rfl
